import Mathlib

/-
Verification of the directory-cache repository (index.js, the most evolved
variant, and lib/DirectoryCache.js, the older variant) against its
natural-language specification.

The JavaScript code is shallowly embedded: JS objects used as string maps
become insertion-ordered association lists (assignment to a fresh key appends,
assignment to a present key updates in place, `delete` removes, `_.keys` and
`for..in` see insertion order); `undefined` becomes `Option`; EventEmitter
emissions become an events list on the state; asynchronous callbacks become
explicit result values (a callback receiving `err` becomes an `Option JsErr`,
a synchronous JS `throw` becomes the error side of an `Except` carrying the
state as it was at the moment of the throw).
-/

set_option autoImplicit false

namespace DirCache

/-- Kinds of JS error values the embedded code can produce or throw. -/
inductive JsErr where
  | ioErr (msg : String)
  | synErr (msg : String)
  | typeErr (msg : String)
  | genErr (msg : String)
  deriving DecidableEq, Repr

/-- Content cached for a file: the raw bytes/text read from disk, or the value
produced by JSON.parse. The cache never inspects the parsed structure, so the
embedding records the source text the parse accepted. -/
inductive JsData where
  | raw (s : String)
  | json (src : String)
  deriving DecidableEq, Repr

/-- Notifications emitted by the index.js cache via its EventEmitter:
`add`, `update`, `delete` each carry the filename and the data passed to
`emit`; `error` carries the fault. The data slot is `Option JsData` because
the emitted value can be the JS `undefined`. -/
inductive CacheEvent where
  | add (file : String) (data : Option JsData)
  | update (file : String) (data : Option JsData)
  | del (file : String) (data : Option JsData)
  | err (e : JsErr)
  deriving DecidableEq, Repr

/-- Lookup of a key in a JS object modelled as an ordered association list. -/
def objGet {α : Type} (obj : List (String × α)) (k : String) : Option α :=
  match obj with
  | [] => none
  | (k', v) :: rest => if k' = k then some v else objGet rest k

/-- The JS `k in obj` test: key presence. -/
def objHas {α : Type} (obj : List (String × α)) (k : String) : Bool :=
  (objGet obj k).isSome

/-- Assignment `obj[k] = v`: a present key keeps its position and gets the new
value, a fresh key is appended (JS string-key insertion order). -/
def objSet {α : Type} (obj : List (String × α)) (k : String) (v : α) :
    List (String × α) :=
  match obj with
  | [] => [(k, v)]
  | (k', v') :: rest =>
      if k' = k then (k, v) :: rest else (k', v') :: objSet rest k v

/-- The JS `delete obj[k]` operation. -/
def objDelete {α : Type} (obj : List (String × α)) (k : String) :
    List (String × α) :=
  obj.filter (fun p => !(p.1 == k))

/-- Keys of a JS object in insertion order (what lodash `_.keys` returns). -/
def objKeys {α : Type} (obj : List (String × α)) : List String :=
  obj.map (fun p => p.1)

/-- State of one index.js DirectoryCache instance: the `cache` object mapping
filename to cached value (a key can be present with value `undefined`, hence
`Option JsData`), the `count` and `lastCount` dirty-flag counters from the
constructor, the `parseJson` flag, and the list of events emitted so far. -/
structure CacheState where
  cache : List (String × Option JsData)
  count : Int
  lastCount : Int
  parseJson : Bool
  events : List CacheEvent
  deriving DecidableEq, Repr

/-- The state of a freshly constructed cache after `init` set `this.cache = {}`:
empty object, both counters zero, JSON parsing enabled by the constructor. -/
def initialState : CacheState :=
  { cache := [], count := 0, lastCount := 0, parseJson := true, events := [] }

/-- ASCII lower-casing of one character, the slice of `toLowerCase` the
filenames here exercise. -/
def lowerChar (c : Char) : Char :=
  if 'A' ≤ c ∧ c ≤ 'Z' then Char.ofNat (c.toNat + 32) else c

/-- Source `isJsonFile` (index.js line 356): `filename.slice(-5).toLowerCase()
=== ".json"`. JS `slice(-5)` takes the last five characters, or the whole
string when it is shorter. -/
def isJsonFile (filename : String) : Bool :=
  let cs := filename.data
  ((cs.drop (cs.length - 5)).map lowerChar) = ['.', 'j', 's', 'o', 'n']

/-- Whitespace characters JSON allows between tokens. -/
def isWs (c : Char) : Bool :=
  c = ' ' || c = '\t' || c = '\n' || c = '\r'

/-- Drop leading JSON whitespace. -/
def skipWs : List Char → List Char
  | [] => []
  | c :: cs => if isWs c then skipWs cs else c :: cs

/-- Consume the remainder of a JSON string literal after the opening quote. -/
def strRest : List Char → Option (List Char)
  | [] => none
  | '"' :: rest => some rest
  | '\\' :: _ :: rest => strRest rest
  | '\\' :: [] => none
  | _ :: rest => strRest rest

/-- Drop a run of decimal digits. -/
def dropDigits : List Char → List Char
  | [] => []
  | c :: cs => if c.isDigit then dropDigits cs else c :: cs

/-- Consume an optional JSON fraction part. -/
def numFrac : List Char → Option (List Char)
  | '.' :: d :: r => if d.isDigit then some (dropDigits (d :: r)) else none
  | '.' :: [] => none
  | cs => some cs

/-- Consume an optional JSON exponent part. -/
def numExp : List Char → Option (List Char)
  | c :: rest =>
      if c = 'e' || c = 'E' then
        let r := match rest with
                 | s :: r2 => if s = '+' || s = '-' then r2 else rest
                 | [] => []
        match r with
        | d :: _ => if d.isDigit then some (dropDigits r) else none
        | [] => none
      else some (c :: rest)
  | [] => some []

/-- Consume a JSON number starting at the given characters. -/
def numTail (cs : List Char) : Option (List Char) :=
  let cs1 := match cs with | '-' :: r => r | _ => cs
  match cs1 with
  | c :: _ =>
      if c.isDigit then
        match numFrac (dropDigits cs1) with
        | none => none
        | some r2 => numExp r2
      else none
  | [] => none

/-- Check for a literal keyword tail such as `ull` after the leading `n`. -/
def litTail (lit : List Char) (cs : List Char) : Option (List Char) :=
  match lit, cs with
  | [], rest => some rest
  | l :: ls, c :: rest => if l = c then litTail ls rest else none
  | _ :: _, [] => none

mutual

/-- Consume one JSON value; fuel bounds the recursion depth. -/
def jsonVal : Nat → List Char → Option (List Char)
  | 0, _ => none
  | n + 1, cs =>
    match skipWs cs with
    | [] => none
    | 'n' :: r => litTail ['u', 'l', 'l'] r
    | 't' :: r => litTail ['r', 'u', 'e'] r
    | 'f' :: r => litTail ['a', 'l', 's', 'e'] r
    | '"' :: r => strRest r
    | '[' :: r =>
        (match skipWs r with
         | ']' :: r2 => some r2
         | r2 => jsonArrItems n r2)
    | '\x7b' :: r =>
        (match skipWs r with
         | '\x7d' :: r2 => some r2
         | r2 => jsonObjItems n r2)
    | c :: r => if c = '-' || c.isDigit then numTail (c :: r) else none

/-- Consume the comma-separated items of a JSON array up to `]`. -/
def jsonArrItems : Nat → List Char → Option (List Char)
  | 0, _ => none
  | n + 1, cs =>
    match jsonVal n cs with
    | none => none
    | some rest =>
      match skipWs rest with
      | ',' :: r2 => jsonArrItems n r2
      | ']' :: r2 => some r2
      | _ => none

/-- Consume the comma-separated members of a JSON object up to the closing
brace. -/
def jsonObjItems : Nat → List Char → Option (List Char)
  | 0, _ => none
  | n + 1, cs =>
    match skipWs cs with
    | '"' :: r =>
      (match strRest r with
       | none => none
       | some rest =>
         match skipWs rest with
         | ':' :: r2 =>
           (match jsonVal n r2 with
            | none => none
            | some r3 =>
              match skipWs r3 with
              | ',' :: r4 => jsonObjItems n r4
              | '\x7d' :: r4 => some r4
              | _ => none)
         | _ => none)
    | _ => none

end

/-- Whether a string is a syntactically valid JSON text. -/
def jsonValid (s : String) : Bool :=
  match jsonVal (2 * s.length + 4) (skipWs s.data) with
  | some rest => (skipWs rest).isEmpty
  | none => false

/-- The JS coercion `String(x)` applied to the argument `JSON.parse` receives:
the JS `undefined` becomes the text `undefined`, a string is itself. -/
def jsStringOf : Option String → String
  | none => "undefined"
  | some s => s

/-- Host primitive `JSON.parse` at the boundary the cache code observes: the
argument is coerced to a string; a text that is not valid JSON throws a
SyntaxError, a valid one yields the decoded value (recorded by its source
text, which the cache never inspects). -/
def jsonParse (data : Option String) : Except JsErr String :=
  let s := jsStringOf data
  if jsonValid s then Except.ok s
  else Except.error (JsErr.synErr "Unexpected token in JSON")

/-- Source `DirectoryCache.prototype._cacheFile` (index.js lines 252-263):
`json = this.parseJson && isJsonFile(file)`; when `json`, the data is passed
through `JSON.parse` BEFORE the assignment `this.cache[file] = data`, so a
parse failure throws synchronously with the store untouched (the error side
carries the state at the throw). Returns the value stored, which the callers
pass to `emit`. -/
def cacheFile (st : CacheState) (file : String) (data : Option String) :
    Except (JsErr × CacheState) (CacheState × Option JsData) :=
  let json := st.parseJson && isJsonFile file
  if json then
    match jsonParse data with
    | Except.error e => Except.error (e, st)
    | Except.ok v =>
        let d : Option JsData := some (JsData.json v)
        Except.ok ({ st with cache := objSet st.cache file d }, d)
  else
    let d : Option JsData := data.map JsData.raw
    Except.ok ({ st with cache := objSet st.cache file d }, d)

/-- Source `DirectoryCache.prototype._addFile` (index.js lines 188-199):
caches the data, increments `this.count`, emits `add` with the stored value,
then calls back with no error. -/
def addFile (st : CacheState) (file : String) (data : Option String) :
    Except (JsErr × CacheState) CacheState :=
  match cacheFile st file data with
  | Except.error es => Except.error es
  | Except.ok (st1, d) =>
      Except.ok { st1 with
                  count := st1.count + 1,
                  events := st1.events ++ [CacheEvent.add file d] }

/-- Source `DirectoryCache.prototype._updateFile` (index.js lines 212-222).
The guard is written `if (!file in this.cache) throw ...`; JS operator
precedence parses this as `(!file) in this.cache`, so the key actually tested
is `String(!file)`: the key `"false"` for a non-empty filename, `"true"` for
the empty one. When that key is absent (the usual case) no throw happens, the
data is cached and `update` is emitted; `this.count` is never touched. -/
def updateFile (st : CacheState) (file : String) (data : Option String) :
    Except (JsErr × CacheState) CacheState :=
  let guardKey := if file = "" then "true" else "false"
  if objHas st.cache guardKey then
    Except.error (JsErr.genErr "cannot update a new file, use addFile instead", st)
  else
    match cacheFile st file data with
    | Except.error es => Except.error es
    | Except.ok (st1, d) =>
        Except.ok { st1 with events := st1.events ++ [CacheEvent.update file d] }

/-- Source `DirectoryCache.prototype._deleteFile` (index.js lines 231-243):
when the key is present, capture the value, delete the key, DECREMENT
`this.count`, emit `delete` with the captured value, and return it; when
absent, do nothing at all. Also returns the captured value like the source. -/
def deleteFile (st : CacheState) (file : String) :
    CacheState × Option (Option JsData) :=
  match objGet st.cache file with
  | some v =>
      ({ st with
         cache := objDelete st.cache file,
         count := st.count - 1,
         events := st.events ++ [CacheEvent.del file v] }, some v)
  | none => (st, none)

/-- Source `DirectoryCache.prototype.getFilenames` (index.js lines 126-128):
`return _.keys(this.cache)`. Lodash builds a fresh array on every call, so the
rebuilt flag in the result is always true: no dirty-flag check is consulted
and no previously built sequence is ever returned. -/
def getFilenames (st : CacheState) : List String × Bool :=
  (objKeys st.cache, true)

/-- Source `DirectoryCache.prototype.getFile` (index.js lines 134-136):
`return this.cache[file]`; JS yields `undefined` both for an absent key and
for a key stored with value `undefined`. -/
def getFile (st : CacheState) (file : String) : Option JsData :=
  (objGet st.cache file).bind id

/-- Outcome of the filesystem probe-and-read primitives for one filename, the
external world the async pipeline consumes: how `fs.stat` answered and, when
consulted, how `fs.readFile` answered. -/
structure FileWorld where
  statHere : Except JsErr Bool
  readHere : Except JsErr String
  deriving Repr

/-- Source `maybeRead` (index.js lines 320-331) composed with `stat`
(lines 301-308): a stat error is passed to the callback; a regular file is
read (a read error is passed to the callback); anything else yields
`undefined` content without touching the read primitive. -/
def statMaybeRead (w : FileWorld) : Except JsErr (Option String) :=
  match w.statHere with
  | Except.error e => Except.error e
  | Except.ok isFile =>
      if isFile then
        match w.readHere with
        | Except.error e => Except.error e
        | Except.ok content => Except.ok (some content)
      else Except.ok none

/-- One run of `this._joinStatReadAdd = async.seq(pathJoin, stat, maybeRead,
_.bind(this._addFile, this))` (index.js line 33) for one filename: an error a
step passes to its callback short-circuits to the sequence callback (the
`Option JsErr` in the result); a synchronous throw inside `_addFile`
propagates as the `Except` error. -/
def runAddOne (st : CacheState) (fw : String × FileWorld) :
    Except (JsErr × CacheState) (CacheState × Option JsErr) :=
  match statMaybeRead fw.2 with
  | Except.error e => Except.ok (st, some e)
  | Except.ok data =>
      match addFile st fw.1 data with
      | Except.error es => Except.error es
      | Except.ok st1 => Except.ok (st1, none)

/-- One run of `this._joinStatReadUpdate` (index.js line 35) for one
filename, ending in `_updateFile`. -/
def runUpdateOne (st : CacheState) (fw : String × FileWorld) :
    Except (JsErr × CacheState) (CacheState × Option JsErr) :=
  match statMaybeRead fw.2 with
  | Except.error e => Except.ok (st, some e)
  | Except.ok data =>
      match updateFile st fw.1 data with
      | Except.error es => Except.error es
      | Except.ok st1 => Except.ok (st1, none)

/-- Value of `this` at a JS call site: the cache instance when the function
was bound with `_.bind(fn, this)`, otherwise the module/global object. -/
inductive JsThisArg where
  | globalObj
  | cacheSelf
  deriving DecidableEq, Repr

/-- Source `maybeEmitError` (index.js lines 265-268): `if (err)
this.emit('error', err)`. When `this` is the cache the fault is emitted as an
`error` event; when the function was passed unbound (as `attachWatcher` does),
`this` is the global object, `this.emit` is `undefined`, and calling it throws
a TypeError. -/
def maybeEmitError (thisArg : JsThisArg) (st : CacheState)
    (e? : Option JsErr) : Except (JsErr × CacheState) CacheState :=
  match e? with
  | none => Except.ok st
  | some e =>
      match thisArg with
      | JsThisArg.cacheSelf =>
          Except.ok { st with events := st.events ++ [CacheEvent.err e] }
      | JsThisArg.globalObj =>
          Except.error (JsErr.typeErr "this.emit is not a function", st)

/-- The `async.map` part of `mapFiles` (index.js lines 279-283) running the
per-file operation over a batch: every file is processed (started tasks all
run), the final callback receives the first per-file error if any; a
synchronous throw inside one file aborts everything (in node it becomes an
uncaught exception). -/
def mapFilesRun
    (op : CacheState → String × FileWorld →
          Except (JsErr × CacheState) (CacheState × Option JsErr))
    (st : CacheState) (files : List (String × FileWorld)) :
    Except (JsErr × CacheState) (CacheState × Option JsErr) :=
  match files with
  | [] => Except.ok (st, none)
  | fw :: rest =>
      match op st fw with
      | Except.error es => Except.error es
      | Except.ok (st1, e?) =>
          match mapFilesRun op st1 rest with
          | Except.error es => Except.error es
          | Except.ok (st2, e2?) =>
              Except.ok (st2, match e? with | some e => some e | none => e2?)

/-- The `add` handler installed by `attachWatcher` (index.js lines 163-165):
`mapFiles(self._joinStatReadAdd, files, maybeEmitError)`. Note that
`maybeEmitError` is passed as a bare function reference, unlike the bound
`_addFile`, so at call time its `this` is the global object. -/
def onWatcherAdd (st : CacheState) (files : List (String × FileWorld)) :
    Except (JsErr × CacheState) CacheState :=
  match mapFilesRun runAddOne st files with
  | Except.error es => Except.error es
  | Except.ok (st1, e?) => maybeEmitError JsThisArg.globalObj st1 e?

/-- The `change` handler installed by `attachWatcher` (index.js lines
167-169). -/
def onWatcherChange (st : CacheState) (files : List (String × FileWorld)) :
    Except (JsErr × CacheState) CacheState :=
  match mapFilesRun runUpdateOne st files with
  | Except.error es => Except.error es
  | Except.ok (st1, e?) => maybeEmitError JsThisArg.globalObj st1 e?

/-- The `delete` handler installed by `attachWatcher` (index.js lines
171-173): `_.map(files, deleteOne)` where `deleteOne` is the bound
`_deleteFile`; plain synchronous iteration. -/
def onWatcherDelete (st : CacheState) (files : List String) : CacheState :=
  files.foldl (fun s f => (deleteFile s f).1) st

/-- Who registered a listener on the external watcher: this cache instance or
some other consumer of a shared/injected watcher. -/
inductive Subscriber where
  | thisCache
  | other (id : Nat)
  deriving DecidableEq, Repr

/-- Listener tables of the external watcher for its three filename events. -/
structure WatcherListeners where
  addL : List Subscriber
  changeL : List Subscriber
  deleteL : List Subscriber
  deriving DecidableEq, Repr

/-- A cache instance together with the one external watcher object:
`refWatcher` models the field `this.watcher` (which the index.js constructor,
`init` and `attachWatcher` never assign), `refUWatcher` models `this._watcher`
(assigned by `attachWatcher`), and the watcher carries its listener tables and
kill flag. -/
structure CacheSys where
  st : CacheState
  wListeners : WatcherListeners
  wKilled : Bool
  refWatcher : Bool
  refUWatcher : Bool
  deriving DecidableEq, Repr

/-- Source `DirectoryCache.prototype.attachWatcher` (index.js lines 158-176):
subscribes this instance to the three watcher events, then stores the watcher
in `this._watcher` only. -/
def attachWatcher (sys : CacheSys) : CacheSys :=
  { sys with
    wListeners :=
      { addL := sys.wListeners.addL ++ [Subscriber.thisCache],
        changeL := sys.wListeners.changeL ++ [Subscriber.thisCache],
        deleteL := sys.wListeners.deleteL ++ [Subscriber.thisCache] },
    refUWatcher := true }

/-- Source `DirectoryCache.prototype.stop` (index.js lines 109-119):
`if (this.watcher) { removeAllListeners for the three events; kill }`. The
test consults `this.watcher`, the field nothing in this variant ever assigns;
when it were set, `removeAllListeners` strips EVERY listener of the event,
not only those this instance added. -/
def stop (sys : CacheSys) : CacheSys :=
  if sys.refWatcher then
    { sys with
      wListeners := { addL := [], changeL := [], deleteL := [] },
      wKilled := true }
  else sys

/-- Delivery of a watcher `delete` event: each subscribed listener runs in
registration order; only the listener this cache registered mutates this
cache. -/
def fireDelete (sys : CacheSys) (files : List String) : CacheSys :=
  if sys.wListeners.deleteL.contains Subscriber.thisCache then
    { sys with st := onWatcherDelete sys.st files }
  else sys

/-- The `filter` argument both constructors accept: nothing, a regular
expression (represented by its test on a filename), or a plain function. -/
inductive FilterArg where
  | noFilter
  | regex (test : String → Bool)
  | fn (f : String → Bool)

/-- Filter resolution in both constructors (index.js lines 37-50,
lib/DirectoryCache.js lines 32-45): default `function(file) { return false }`;
a RegExp becomes `function(file) { return !filter.test(file) }`; a function is
used verbatim. The resulting predicate answers true for the filenames to DROP
(the admission sites test `if (!self.filter(file))`). -/
def mkFilter : FilterArg → (String → Bool)
  | FilterArg.noFilter => fun _ => false
  | FilterArg.regex t => fun file => !(t file)
  | FilterArg.fn f => f

/-- Events emitted by the older lib/DirectoryCache.js variant. -/
inductive LibEvent where
  | deleted (file : String)
  | filesDeleted (files : List String)
  | filesAdded (files : List String)
  | filesChanged (files : List String)
  deriving DecidableEq, Repr

/-- State of one lib/DirectoryCache.js instance: `cache`, `count`,
`lastCount`, the `keys` array cached by `getFiles`, the `parseJson` flag and
the events emitted so far. -/
structure LibState where
  cache : List (String × Option JsData)
  count : Int
  lastCount : Int
  keys : List String
  parseJson : Bool
  events : List LibEvent
  deriving DecidableEq, Repr

/-- Source `DirectoryCache.prototype.getFiles` (lib/DirectoryCache.js lines
173-180): when `lastCount !== count`, rebuild `this.keys` from the cache
object and record `lastCount = count`; otherwise return the stored `keys`
array unchanged. The Bool in the result flags whether the rebuild branch ran
(the returned array is a fresh object exactly when it is true). -/
def libGetFiles (st : LibState) : LibState × List String × Bool :=
  if st.lastCount ≠ st.count then
    let ks := objKeys st.cache
    ({ st with keys := ks, lastCount := st.count }, ks, true)
  else
    (st, st.keys, false)

/-- Source `DirectoryCache.prototype.deleteFile` (lib/DirectoryCache.js lines
217-221): unconditionally `delete this.cache[file]`, decrement `this.count`,
emit `deleted` — with no presence check at all. -/
def libDeleteFile (st : LibState) (file : String) : LibState :=
  { st with
    cache := objDelete st.cache file,
    count := st.count - 1,
    events := st.events ++ [LibEvent.deleted file] }

/-- Source `DirectoryCache.prototype.addFile` (lib/DirectoryCache.js lines
188-215) for a read that succeeded with non-empty data: parse when the JSON
policy applies (a parse failure throws synchronously), increment `count` only
when `this.cache[file]` was `undefined` (absent or stored as undefined), then
assign the entry. A read error is passed to the callback; empty data falls
through without ever calling back (modelled by the `none` callback result). -/
def libAddFile (st : LibState) (file : String)
    (readResult : Except JsErr String) :
    Except (JsErr × LibState) (LibState × Option (Option JsErr)) :=
  match readResult with
  | Except.error e => Except.ok (st, some (some e))
  | Except.ok data =>
      if data.length > 0 then
        let json := st.parseJson && isJsonFile file
        match (if json then jsonParse (some data) else Except.ok data) with
        | Except.error e => Except.error (e, st)
        | Except.ok txt =>
            let d : JsData := if json then JsData.json txt else JsData.raw txt
            let st1 :=
              if (objGet st.cache file).bind id = none then
                { st with count := st.count + 1 }
              else st
            Except.ok
              ({ st1 with cache := objSet st1.cache file (some d) }, some none)
      else
        Except.ok (st, none)

/-- The selection `grabFiles` makes (lib/DirectoryCache.js lines 83-98): a
functor calling `addFile` is pushed for exactly the files with
`!self.filter(files[i])`; every admission into the older cache goes through
this selection. -/
def grabFilesSelect (filter : String → Bool) (files : List String) :
    List String :=
  files.filter (fun f => !(filter f))

/-- After deleting a key, looking it up yields nothing. -/
theorem objGet_objDelete_self {α : Type} (obj : List (String × α)) (k : String) :
    objGet (objDelete obj k) k = none := by
  induction obj with
  | nil => rfl
  | cons p rest ih =>
      by_cases h : p.1 = k
      · simp [objDelete, List.filter_cons, h] at ih ⊢
        exact ih
      · simpa [objDelete, List.filter_cons, h, objGet] using ih

/-- The key just assigned is among the object keys. -/
theorem mem_objKeys_objSet {α : Type} (obj : List (String × α)) (k : String)
    (v : α) : k ∈ objKeys (objSet obj k v) := by
  induction obj with
  | nil => simp [objSet, objKeys]
  | cons p rest ih =>
      by_cases h : p.1 = k
      · simp [objSet, h, objKeys]
      · simp only [objSet, if_neg h, objKeys, List.map_cons, List.mem_cons]
        exact Or.inr ih

/-- The evaluation of the host JSON.parse on the JS undefined: the coercion
String(undefined) is the text undefined, which is not valid JSON, so a
SyntaxError is thrown. -/
theorem jsonParse_undefined :
    jsonParse none = Except.error (JsErr.synErr "Unexpected token in JSON") := by
  rfl

/-- Claim C8: deleting a filename that is present in the ContentStore removes
its entry, captures the prior cached content, and raises a delete
notification carrying that prior content; afterwards getFile for that
filename returns undefined. -/
theorem deleteFile_present_removes_and_notifies
    (st : CacheState) (file : String) (v : Option JsData)
    (h : objGet st.cache file = some v) :
    deleteFile st file =
      ({ st with
         cache := objDelete st.cache file,
         count := st.count - 1,
         events := st.events ++ [CacheEvent.del file v] }, some v) ∧
    getFile (deleteFile st file).1 file = none := by
  constructor
  · simp [deleteFile, h]
  · simp [deleteFile, h, getFile, objGet_objDelete_self]

/-- Concrete run of the C8 theorem: a store holding the file with raw content
is emptied by the delete, the notification carries the prior content, and the
subsequent lookup is undefined. -/
theorem deleteFile_present_removes_and_notifies_witness :
    deleteFile
        { initialState with
          cache := [("1.json", some (JsData.raw "old"))], count := 1 }
        "1.json" =
      ({ initialState with
          cache := objDelete [("1.json", some (JsData.raw "old"))] "1.json",
          count := (1 : Int) - 1,
          events := [] ++ [CacheEvent.del "1.json" (some (JsData.raw "old"))] },
       some (some (JsData.raw "old"))) ∧
    getFile (deleteFile
        { initialState with
          cache := [("1.json", some (JsData.raw "old"))], count := 1 }
        "1.json").1 "1.json" = none :=
  deleteFile_present_removes_and_notifies
    { initialState with
      cache := [("1.json", some (JsData.raw "old"))], count := 1 }
    "1.json" (some (JsData.raw "old")) (by decide)

/-- Claim C9: a delete for a filename absent from the ContentStore is silently
ignored and idempotent: one delivery returns nothing and changes nothing, and
any number of repeated deliveries leaves the entries, the counter and the
emitted notifications exactly as they were. -/
theorem deleteFile_absent_idempotent (st : CacheState) (file : String)
    (h : objGet st.cache file = none) (n : Nat) :
    deleteFile st file = (st, none) ∧
    (fun s => (deleteFile s file).1)^[n] st = st := by
  have hstep : deleteFile st file = (st, none) := by simp [deleteFile, h]
  refine ⟨hstep, ?_⟩
  induction n with
  | zero => rfl
  | succ m ih =>
      rw [Function.iterate_succ_apply, hstep]
      exact ih

/-- Concrete run of the C9 theorem: deleting a missing filename three times in
a row leaves a one-entry store untouched. -/
theorem deleteFile_absent_idempotent_witness :
    deleteFile
        { initialState with
          cache := [("1.json", some (JsData.raw "x"))], count := 1 }
        "gone.txt" =
      ({ initialState with
         cache := [("1.json", some (JsData.raw "x"))], count := 1 }, none) ∧
    (fun s => (deleteFile s "gone.txt").1)^[3]
        { initialState with
          cache := [("1.json", some (JsData.raw "x"))], count := 1 } =
      { initialState with
        cache := [("1.json", some (JsData.raw "x"))], count := 1 } :=
  deleteFile_absent_idempotent
    { initialState with
      cache := [("1.json", some (JsData.raw "x"))], count := 1 }
    "gone.txt" (by decide) 3

/-- Claim C10: with JSON parsing enabled, a name whose last five characters
case-insensitively equal .json but whose probe reports a non-regular file
reaches the caching step with undefined content, on the add pipeline and on
the change pipeline alike. On the add pipeline JSON.parse of the coerced text
undefined throws a synchronous SyntaxError (first conjunct); on the change
pipeline a synchronous exception is thrown in every store (second conjunct) —
the same SyntaxError whenever the accidental guard key (false, or true for
the empty name) is absent (third conjunct), and the precedence-bug guard
Error in the pathological store that holds such an entry. In all cases the
exception is not routed to the pipeline callback and the state at the throw
is exactly the starting state: no entry inserted, no add or update
notification raised, no count change. -/
theorem json_nonregular_probe_throws (st : CacheState) (file : String)
    (w : FileWorld) (hp : st.parseJson = true) (hj : isJsonFile file = true)
    (hw : w.statHere = Except.ok false) :
    runAddOne st (file, w) =
      Except.error (JsErr.synErr "Unexpected token in JSON", st) ∧
    (runUpdateOne st (file, w) =
        Except.error (JsErr.synErr "Unexpected token in JSON", st) ∨
     runUpdateOne st (file, w) =
        Except.error
          (JsErr.genErr "cannot update a new file, use addFile instead",
           st)) ∧
    (objGet st.cache (if file = "" then "true" else "false") = none →
      runUpdateOne st (file, w) =
        Except.error (JsErr.synErr "Unexpected token in JSON", st)) := by
  have hupd : objGet st.cache (if file = "" then "true" else "false") = none →
      runUpdateOne st (file, w) =
        Except.error (JsErr.synErr "Unexpected token in JSON", st) := by
    intro hg
    simp [runUpdateOne, statMaybeRead, hw, updateFile, objHas, hg,
          cacheFile, hp, hj, jsonParse_undefined]
  refine ⟨?_, ?_, hupd⟩
  · simp [runAddOne, statMaybeRead, hw, addFile, cacheFile, hp, hj,
          jsonParse_undefined]
  · by_cases hg : objGet st.cache (if file = "" then "true" else "false") = none
    · exact Or.inl (hupd hg)
    · rcases Option.ne_none_iff_exists'.mp hg with ⟨v, hv⟩
      refine Or.inr ?_
      simp [runUpdateOne, statMaybeRead, hw, updateFile, objHas, hv]

/-- Concrete run of the C10 theorem: a directory appearing under the name
d.json, with parsing enabled, makes both the add pipeline and the change
pipeline throw the SyntaxError with the cache untouched. -/
theorem json_nonregular_probe_throws_witness :
    runAddOne initialState
        ("d.json",
         { statHere := Except.ok false, readHere := Except.ok "" }) =
      Except.error (JsErr.synErr "Unexpected token in JSON", initialState) ∧
    (runUpdateOne initialState
        ("d.json",
         { statHere := Except.ok false, readHere := Except.ok "" }) =
        Except.error (JsErr.synErr "Unexpected token in JSON",
          initialState) ∨
     runUpdateOne initialState
        ("d.json",
         { statHere := Except.ok false, readHere := Except.ok "" }) =
        Except.error
          (JsErr.genErr "cannot update a new file, use addFile instead",
           initialState)) ∧
    (objGet initialState.cache
        (if "d.json" = "" then "true" else "false") = none →
      runUpdateOne initialState
        ("d.json",
         { statHere := Except.ok false, readHere := Except.ok "" }) =
        Except.error (JsErr.synErr "Unexpected token in JSON",
          initialState)) :=
  json_nonregular_probe_throws initialState "d.json"
    { statHere := Except.ok false, readHere := Except.ok "" }
    (by decide) (by decide) rfl

/-- Scenario for claim C1: a constructor filter that drops every filename. -/
def c1Filter : String → Bool := mkFilter (FilterArg.fn (fun _ => true))

/-- Scenario for claim C1: the probe sees a regular file with content. -/
def c1World : FileWorld :=
  { statHere := Except.ok true, readHere := Except.ok "hello" }

/-- Scenario for claim C1: the state after the watcher add handler ran. -/
def c1After : CacheState :=
  { initialState with
    cache := [("a.txt", some (JsData.raw "hello"))],
    count := 1,
    events := [CacheEvent.add "a.txt" (some (JsData.raw "hello"))] }

/-- Claim C1: the index.js admission paths (`init` and the watcher `add`
handler, both running `_joinStatReadAdd`) never consult `this.filter`, so a
filename the NameFilter says to drop IS admitted: here the filter drops
every name, yet the add batch inserts the file, `getFile` returns its content
and it appears in `getFilenames`. In the older variant, `grabFiles` is the only
admission path that applies the filter, and there the dropped name is indeed
never selected. -/
theorem filter_never_consulted_on_admission :
    c1Filter "a.txt" = true ∧
    onWatcherAdd initialState [("a.txt", c1World)] = Except.ok c1After ∧
    getFile c1After "a.txt" = some (JsData.raw "hello") ∧
    (getFilenames c1After).1 = ["a.txt"] ∧
    grabFilesSelect c1Filter ["a.txt"] = [] := by
  refine ⟨rfl, ?_, rfl, rfl, rfl⟩
  rfl

/-- Scenario for claim C2 and claim C3: the older-variant store holding one
file after the initial load, with the derived keys not yet built. -/
def c2Lib0 : LibState :=
  { cache := [("1.json", some (JsData.raw "x"))], count := 1, lastCount := 0,
    keys := [], parseJson := true, events := [] }

/-- Scenario for claim C2: after a first `getFiles` call (keys built), an add
of a second file and a delete of the first; the counter decrement brings
`count` back to the value `lastCount` saw, although the key set changed. -/
def c2LibStale : LibState :=
  libDeleteFile
    (match libAddFile (libGetFiles c2Lib0).1 "2.txt" (Except.ok "yy") with
     | Except.ok (st, _) => st
     | Except.error (_, st) => st)
    "1.json"

/-- Claim C2: the rebuild policy. In the older variant, `getFiles` rebuilds the
derived keys exactly when `lastCount` differs from `count` (first conjunct)
and otherwise returns the stored sequence unchanged (second conjunct) — but
the current `getFilenames` builds a fresh array on EVERY call (third
conjunct), never returning the same object; and the decrement on delete
breaks the dirty flag, so after add-then-delete the older variant returns a
stale sequence that does not equal the current key set (last conjuncts). -/
theorem getFiles_rebuild_policy :
    (∀ st : LibState, (libGetFiles st).2.2 = true ↔ st.lastCount ≠ st.count) ∧
    (∀ st : LibState, (libGetFiles st).2.2 = false →
        (libGetFiles st).2.1 = st.keys ∧ (libGetFiles st).1 = st) ∧
    (∀ st : CacheState, (getFilenames st).2 = true) ∧
    (libGetFiles c2LibStale).2 = (["1.json"], false) ∧
    objKeys c2LibStale.cache = ["2.txt"] := by
  refine ⟨?_, ?_, fun _ => rfl, by rfl, by rfl⟩
  · intro st
    by_cases h : st.lastCount = st.count <;> simp [libGetFiles, h]
  · intro st h
    by_cases hc : st.lastCount = st.count
    · simp [libGetFiles, hc]
    · simp [libGetFiles, hc] at h

/-- Concrete run of the C2 theorem second conjunct: immediately after a
rebuild the dirty flag is clean, so a second `getFiles` call returns the
stored keys with the state untouched. -/
theorem getFiles_rebuild_policy_witness :
    (libGetFiles (libGetFiles c2Lib0).1).2.1 = (libGetFiles c2Lib0).1.keys ∧
    (libGetFiles (libGetFiles c2Lib0).1).1 = (libGetFiles c2Lib0).1 :=
  getFiles_rebuild_policy.2.1 (libGetFiles c2Lib0).1 (by decide)

/-- Scenario for claim C3: an index.js store holding one file. -/
def c3St : CacheState :=
  { initialState with
    cache := [("a.txt", some (JsData.raw "x"))], count := 1 }

/-- Claim C3: the counter is NOT incremented on delete — `_deleteFile` runs
`this.count--`, so deleting the only file takes the counter from 1 to 0
(first conjunct), not to 2 as the claim states, and the counter is not
monotonic. The other two parts of the claim do hold: an add increments the
counter exactly once (second conjunct) and an update of a present key leaves
it unchanged (third conjunct). -/
theorem count_decremented_on_delete :
    (deleteFile c3St "a.txt").1.count = 0 ∧
    (match addFile initialState "b.txt" (some "y") with
     | Except.ok st => st.count
     | Except.error _ => -1) = initialState.count + 1 ∧
    (match updateFile c3St "a.txt" (some "z") with
     | Except.ok st => st.count
     | Except.error _ => -1) = c3St.count := by
  refine ⟨by rfl, by rfl, by rfl⟩

/-- Scenario for claim C4: the probe sees a regular file whose read yields
the text zz. -/
def c4World : FileWorld :=
  { statHere := Except.ok true, readHere := Except.ok "zz" }

/-- Scenario for claim C4: the state the change handler produces for a
filename that was absent. -/
def c4After : CacheState :=
  { initialState with
    cache := [("2.txt", some (JsData.raw "zz"))],
    events := [CacheEvent.update "2.txt" (some (JsData.raw "zz"))] }

/-- Counterexample to claim C4: a change notification for the absent filename
2.txt does insert the entry, but the mutation counter stays at 0 (an add
would make it 1) and the notification raised is `update`, with no `add`
notification anywhere — so the processing is NOT exactly like an add. -/
theorem change_absent_not_like_add :
    onWatcherChange initialState [("2.txt", c4World)] = Except.ok c4After ∧
    c4After.count = initialState.count ∧
    c4After.events = [CacheEvent.update "2.txt" (some (JsData.raw "zz"))] ∧
    CacheEvent.add "2.txt" (some (JsData.raw "zz")) ∉ c4After.events := by
  refine ⟨by rfl, rfl, rfl, by decide⟩

/-- Claim C4 as amended: processing a change notification for a filename that
is not present does not throw — the guard `if (!file in this.cache)` tests
the key false (true for the empty name) because of JS operator precedence —
and the entry is inserted with an `update` (not `add`) notification while the
mutation counter stays unchanged. Stated for filenames to which the JSON
decode policy does not apply and stores without an entry literally named
false. -/
theorem updateFile_absent_inserts_without_count
    (st : CacheState) (file : String) (data : Option String)
    (habsent : objGet st.cache file = none)
    (hfile : file ≠ "")
    (hguard : objGet st.cache "false" = none)
    (hjson : (st.parseJson && isJsonFile file) = false) :
    updateFile st file data =
      Except.ok
        { st with
          cache := objSet st.cache file (data.map JsData.raw),
          events := st.events ++
            [CacheEvent.update file (data.map JsData.raw)] } := by
  simp [updateFile, hfile, objHas, hguard, cacheFile, hjson]

/-- Concrete run of the amended C4 theorem: updating the absent 2.txt in a
store holding only 1.json succeeds, inserting the raw content. -/
theorem updateFile_absent_inserts_without_count_witness :
    updateFile c3St "2.txt" (some "zz") =
      Except.ok
        { c3St with
          cache := objSet c3St.cache "2.txt" ((some "zz").map JsData.raw),
          events := c3St.events ++
            [CacheEvent.update "2.txt" ((some "zz").map JsData.raw)] } :=
  updateFile_absent_inserts_without_count c3St "2.txt" (some "zz")
    (by decide) (by decide) (by decide) (by decide)

/-- Scenario for claim C5: a batch where the probe of bad.txt fails with a
permission error while good.txt probes and reads fine. -/
def c5Files : List (String × FileWorld) :=
  [("bad.txt", { statHere := Except.error (JsErr.ioErr "EACCES"),
                 readHere := Except.ok "" }),
   ("good.txt", { statHere := Except.ok true, readHere := Except.ok "g" })]

/-- Scenario for claim C5: the starting store already holds bad.txt. -/
def c5Start : CacheState :=
  { initialState with
    cache := [("bad.txt", some (JsData.raw "old"))], count := 1 }

/-- Scenario for claim C5: the state at the moment the unbound error handler
throws: the faulting filename untouched, the other file of the batch applied,
and no `error` event anywhere. -/
def c5AtThrow : CacheState :=
  { c5Start with
    cache := [("bad.txt", some (JsData.raw "old")),
              ("good.txt", some (JsData.raw "g"))],
    count := 2,
    events := [CacheEvent.add "good.txt" (some (JsData.raw "g"))] }

/-- Claim C5: a per-file probe fault is meant to reach `maybeEmitError` and be
emitted as an `error` event on the cache, but `attachWatcher` passes
`maybeEmitError` unbound, so its `this.emit` is undefined and the handler
throws a TypeError instead. The faulting filename is indeed left unchanged
and the other file of the batch is applied (the per-file recovery parts of
the claim hold), but no `error` notification exists and the engine dies on
the throw. -/
theorem probe_fault_throws_in_error_handler :
    onWatcherAdd c5Start c5Files =
      Except.error (JsErr.typeErr "this.emit is not a function", c5AtThrow) ∧
    getFile c5AtThrow "bad.txt" = some (JsData.raw "old") ∧
    (∀ e : JsErr, CacheEvent.err e ∉ c5AtThrow.events) ∧
    maybeEmitError JsThisArg.cacheSelf c5Start (some (JsErr.ioErr "EACCES")) =
      Except.ok { c5Start with
                  events := [CacheEvent.err (JsErr.ioErr "EACCES")] } := by
  refine ⟨by rfl, by rfl, ?_, by rfl⟩
  intro e
  simp [c5AtThrow, c5Start, initialState]

/-- Scenario for claim C6: a cache holding one file, sharing a watcher with
another consumer that registered its own add and delete listeners. -/
def c6Sys0 : CacheSys :=
  { st := { initialState with
            cache := [("1.json", some (JsData.raw "x"))], count := 1 },
    wListeners := { addL := [Subscriber.other 0], changeL := [],
                    deleteL := [Subscriber.other 0] },
    wKilled := false, refWatcher := false, refUWatcher := false }

/-- Scenario for claim C6: the system after `attachWatcher`. -/
def c6Sys1 : CacheSys := attachWatcher c6Sys0

/-- Claim C6: `stop` reads `this.watcher`, a field this variant never assigns
(`attachWatcher` stores the watcher in `this._watcher`), so `stop` is a
no-op: the subscriptions survive, the watcher is not killed, and a later
watcher delete event still mutates and notifies the supposedly frozen cache.
Moreover, on the path `stop` meant to take, `removeAllListeners` also strips
the OTHER consumer from the shared watcher, not only this instance. -/
theorem stop_noop_cache_not_frozen :
    stop c6Sys1 = c6Sys1 ∧
    (stop c6Sys1).wKilled = false ∧
    (stop c6Sys1).wListeners.deleteL =
      [Subscriber.other 0, Subscriber.thisCache] ∧
    (fireDelete (stop c6Sys1) ["1.json"]).st.cache = [] ∧
    (fireDelete (stop c6Sys1) ["1.json"]).st.events =
      [CacheEvent.del "1.json" (some (JsData.raw "x"))] ∧
    (stop { c6Sys1 with refWatcher := true }).wListeners.addL = [] := by
  refine ⟨by rfl, by rfl, by rfl, by rfl, by rfl, by rfl⟩

/-- Scenario for claim C7: the probe reports a non-regular entry, so the read
primitive is never consulted. -/
def c7World : FileWorld :=
  { statHere := Except.ok false, readHere := Except.ok "" }

/-- Counterexample to claim C7: the claim quantifies over EVERY added
candidate whose probe is non-regular, but for the name sub.json — JSON
suffix, parsing enabled (the constructor default) — the pipeline throws a
SyntaxError with the state untouched: the name is not inserted, no `add`
notification fires, and it is not counted in `getFilenames`. -/
theorem nonregular_json_name_not_added :
    runAddOne initialState ("sub.json", c7World) =
      Except.error (JsErr.synErr "Unexpected token in JSON", initialState) ∧
    "sub.json" ∉ (getFilenames initialState).1 := by
  refine ⟨by rfl, by decide⟩

/-- Claim C7 as amended: for an added candidate whose probe reports a
non-regular file AND to which the JSON decode policy does not apply (name
without the .json suffix, or parsing disabled), the pipeline yields the
no-content result: the name is inserted with undefined content, an `add`
notification fires carrying undefined, the count rises, and the name appears
in `getFilenames`. -/
theorem nonregular_add_yields_undefined_entry
    (st : CacheState) (file : String) (w : FileWorld)
    (hjson : (st.parseJson && isJsonFile file) = false)
    (hw : w.statHere = Except.ok false) :
    runAddOne st (file, w) =
      Except.ok
        ({ st with
           cache := objSet st.cache file none,
           count := st.count + 1,
           events := st.events ++ [CacheEvent.add file none] }, none) ∧
    file ∈ (getFilenames
        { st with
          cache := objSet st.cache file none,
          count := st.count + 1,
          events := st.events ++ [CacheEvent.add file none] }).1 := by
  constructor
  · simp [runAddOne, statMaybeRead, hw, addFile, cacheFile, hjson]
  · exact mem_objKeys_objSet st.cache file none

/-- Concrete run of the amended C7 theorem: a subdirectory named moo appears;
it is added with undefined content and counted among the filenames (the
repository test expects exactly this). -/
theorem nonregular_add_yields_undefined_entry_witness :
    runAddOne initialState ("moo", c7World) =
      Except.ok
        ({ initialState with
           cache := objSet initialState.cache "moo" none,
           count := initialState.count + 1,
           events := initialState.events ++ [CacheEvent.add "moo" none] },
         none) ∧
    "moo" ∈ (getFilenames
        { initialState with
          cache := objSet initialState.cache "moo" none,
          count := initialState.count + 1,
          events := initialState.events ++ [CacheEvent.add "moo" none] }).1 :=
  nonregular_add_yields_undefined_entry initialState "moo" c7World
    (by decide) (by rfl)

end DirCache
